/-
Verification of the Yonote notification bot's event-tracking core.

Shallow embedding of the relevant parts of `bot.py` and `settings.py`:
  - Python strings are Lean `String` (field access) with character-list
    (`List Char`) level operations mirroring Python slicing, `in`,
    `.lower()` and `.strip()`.
  - Python `None` / missing dict keys are `Option`.
  - Python truthiness of strings (`""` is falsy) and lists (`[]` is falsy)
    is modelled explicitly at every point the source relies on it.
  - SQLite tables keyed by a primary key and Python dicts are association
    lists with replace-on-insert semantics.
  - The notification cycle's externally visible behaviour (cursor writes,
    message sends, client close) is a list of `BotAction`s; the one statement
    in `_process_events` that can raise (`new_events[0]['id']`, a KeyError
    when the event has no id) is modelled by a success flag.
-/
import Mathlib

set_option maxRecDepth 4096

/-! ### Python string primitives -/

/-- Characters removed by Python's `str.strip()` with no argument
(ASCII whitespace; the only ones that occur at the ends of the
formatter's template are `'\n'`). -/
def isPySpace (c : Char) : Bool :=
  c == ' ' || c == '\t' || c == '\n' || c == '\r' || c == '\x0b' || c == '\x0c'

/-- Remove trailing whitespace (the right half of `str.strip()`). -/
def dropTrail (l : List Char) : List Char :=
  (l.reverse.dropWhile isPySpace).reverse

/-- Python `str.strip()` on the character list of a string. -/
def pyStripList (l : List Char) : List Char :=
  dropTrail (l.dropWhile isPySpace)

/-- Starts-with test on character lists (helper for the substring test). -/
def chkPre : List Char → List Char → Bool
  | [], _ => true
  | _ :: _, [] => false
  | a :: as, b :: bs => a == b && chkPre as bs

/-- Python `needle in hay` for strings: substring containment. -/
def pyIn (needle : List Char) : List Char → Bool
  | [] => chkPre needle []
  | c :: rest => chkPre needle (c :: rest) || pyIn needle rest

/-- Python `str.lower()` on one character, restricted to the alphabets the
source actually uses (ASCII and Russian Cyrillic). -/
def pyLowerChar (c : Char) : Char :=
  if 'A' ≤ c && c ≤ 'Z' then Char.ofNat (c.toNat + 32)
  else if 'А' ≤ c && c ≤ 'Я' then Char.ofNat (c.toNat + 32)
  else if c = 'Ё' then 'ё'
  else c

/-- Python `str.lower()` on a character list. -/
def pyLower (l : List Char) : List Char := l.map pyLowerChar

/-! ### Data model (spec.md §3; `bot.py` event/document dict shapes) -/

/-- A feed event as consumed by `bot.py`: every field is read with
`.get`, so every field may be absent.  `data` is the comment body
`event.get('data', {}).get('data')` (absent when either level is missing
or not a dict). -/
structure Event where
  id : Option String
  name : Option String
  actorName : Option String
  documentId : Option String
  data : Option String
deriving DecidableEq, Repr

/-- A document as returned by `documents.info` and consumed by the
formatter (`document.get('title', ...)`, `document.get('id', '')`). -/
structure Document where
  id : Option String
  title : Option String
deriving DecidableEq, Repr

/-! ### Event classifier and deduplicator (`YonoteBot._process_events` loop) -/

/-- Python truthiness of the stored cursor in
`if last_event_id and event.get('id') == last_event_id`: the cursor is
falsy when it is `None` or the empty string. -/
def cursorTruthy : Option String → Bool
  | none => false
  | some s => !(s == "")

/-- The classification loop of `_process_events`
(`for event in events: if last_event_id and event.get('id') == last_event_id: break;
new_events.append(event)`). -/
def classify_new_events (lastEventId : Option String) : List Event → List Event
  | [] => []
  | e :: rest =>
    if cursorTruthy lastEventId && (e.id == lastEventId) then []
    else e :: classify_new_events lastEventId rest

/-- The exact allowlist `comment_events` in `YonoteBot._is_comment_event`. -/
def comment_event_names : List String :=
  ["comments.create", "comments.update", "comments.delete", "comments.resolve",
   "comment.create", "comment.update", "comment.delete", "comment.resolve"]

/-- Embedding of `YonoteBot._is_comment_event`: exact allowlist membership, then a
case-insensitive substring fallback over `['comment', 'комментарий']`. -/
def is_comment_event (ev : Event) : Bool :=
  let eventType := pyLower (ev.name.getD "").data
  comment_event_names.any (fun s => s.data == eventType)
    || pyIn "comment".data eventType || pyIn "комментарий".data eventType

/-- The substring fallback of `_is_comment_event` taken alone (the second
tier of the classifier, used to state the refinement claim about the
allowlist tier being redundant). -/
def is_comment_event_fuzzy (ev : Event) : Bool :=
  let eventType := pyLower (ev.name.getD "").data
  pyIn "comment".data eventType || pyIn "комментарий".data eventType

/-! ### Notification formatter (`YonoteBot._format_notification`) -/

/-- The verb-phrase mapping of `_format_notification`: first matching
substring of the lowercased event name among create/update/delete/resolve
wins; otherwise the generic fallback phrase. -/
def verb_for (eventName : String) : String :=
  let lower := pyLower eventName.data
  if pyIn "create".data lower then "создал комментарий"
  else if pyIn "update".data lower then "изменил комментарий"
  else if pyIn "delete".data lower then "удалил комментарий"
  else if pyIn "resolve".data lower then "изменил статус комментария"
  else "выполнил действие с комментарием"

/-- The message of `_format_notification` before the final `.strip()`,
as a character list.  `eventTime` is the already-rendered
`datetime.now(MOSCOW_TZ).strftime(...)` string (formatting time, not event
time).  The comment block is appended only when
`comment_data.get('data')` is truthy, i.e. present and non-empty. -/
def format_raw (ev : Event) (doc : Document) (eventTime : String) : List Char :=
  let documentTitle := doc.title.getD "Без названия"
  let documentUrl := "https://app.yonote.ru/doc/".data ++ (doc.id.getD "").data
  let actorName := ev.actorName.getD "Неизвестный пользователь"
  let action := verb_for (ev.name.getD "")
  let base :=
    "\n📄 <b>".data ++ documentTitle.data ++ "</b>\n\n👤 ".data ++ actorName.data
      ++ " ".data ++ action.data ++ "\n\n🕐 ".data ++ eventTime.data
      ++ " (МСК)\n\n🔗 <a href=\"".data ++ documentUrl
      ++ "\">Перейти к странице</a>\n".data
  match ev.data with
  | none => base
  | some b =>
    if b == "" then base
    else
      let commentText := b.data.take 200 ++ (if 200 < b.data.length then "...".data else [])
      base ++ "\n💬 <i>".data ++ commentText ++ "</i>".data

/-- Embedding of `YonoteBot._format_notification`: the raw template followed by
Python's `message.strip()`. -/
def format_notification (ev : Event) (doc : Document) (eventTime : String) : String :=
  ⟨pyStripList (format_raw ev doc eventTime)⟩

/-- The optional comment block at the end of a formatted message (the
two newlines are the template's trailing newline plus the block's leading
one, both interior after the strip). -/
def comment_tail (ev : Event) : List Char :=
  match ev.data with
  | none => []
  | some b =>
    if b == "" then []
    else
      "\n\n💬 <i>".data
        ++ (b.data.take 200 ++ (if 200 < b.data.length then "...".data else []))
        ++ "</i>".data

/-! ### Durable state: user registry and mute store

SQLite tables with `user_id INTEGER PRIMARY KEY` and the Python dict
cache are association lists; `INSERT OR REPLACE` (and dict assignment)
replaces the whole row for the key. -/

/-- Replace-on-insert upsert on an association list keyed by `user_id`
(the semantics of `INSERT OR REPLACE` on a primary-keyed table and of
Python dict assignment). -/
def upsertRow {α : Type} (l : List (Int × α)) (k : Int) (v : α) : List (Int × α) :=
  (k, v) :: l.filter (fun p => !(p.1 == k))

/-- Primary-key lookup. -/
def getRow {α : Type} (l : List (Int × α)) (k : Int) : Option α :=
  (l.find? (fun p => p.1 == k)).map (·.2)

/-- Embedding of `DELETE ... WHERE user_id = ?` (and Python `del dict[k]`). -/
def delRow {α : Type} (l : List (Int × α)) (k : Int) : List (Int × α) :=
  l.filter (fun p => !(p.1 == k))

/-- One row of the `users` table (`Database.init_db`):
`notifications_enabled BOOLEAN DEFAULT 1`, `last_event_id TEXT` (nullable),
`created_at TIMESTAMP DEFAULT CURRENT_TIMESTAMP`. -/
structure UserRow where
  token : Option String
  enabled : Bool
  lastEventId : Option String
  createdAt : Int
deriving DecidableEq, Repr

/-- The `users` table. -/
structure DbState where
  users : List (Int × UserRow)
deriving DecidableEq, Repr

/-- Embedding of `Database.save_user_token`:
`INSERT OR REPLACE INTO users (user_id, yonote_token) VALUES (?, ?)` —
all unlisted columns take their schema defaults (`notifications_enabled`
back to 1, `last_event_id` to NULL, `created_at` to the current time). -/
def save_user_token (db : DbState) (userId : Int) (token : String) (now : Int) : DbState :=
  ⟨upsertRow db.users userId ⟨some token, true, none, now⟩⟩

/-- Embedding of `Database.update_last_event_id`. -/
def update_last_event_id (db : DbState) (userId : Int) (eventId : String) : DbState :=
  ⟨db.users.map (fun p => if p.1 == userId then (p.1, { p.2 with lastEventId := some eventId }) else p)⟩

/-- Embedding of `Database.delete_user`, i.e. `DELETE FROM users WHERE user_id = ?` — this
is the whole body; it touches only the `users` table. -/
def delete_user (db : DbState) (userId : Int) : DbState :=
  ⟨delRow db.users userId⟩

/-- State of `NotificationSettings`: the durable `notification_settings`
table and the in-memory `_disabled_until` dict cache.  Timestamps are
seconds. -/
structure SettingsState where
  table : List (Int × Int)
  cache : List (Int × Int)
deriving DecidableEq, Repr

/-- Embedding of `NotificationSettings.disable_notifications`:
`disabled_until = now + timedelta(hours=hours)`; `INSERT OR REPLACE` into
the durable table, then `self._disabled_until[user_id] = disabled_until`. -/
def disable_notifications (st : SettingsState) (userId : Int) (hours : Int) (now : Int) :
    SettingsState :=
  let disabledUntil := now + hours * 3600
  ⟨upsertRow st.table userId disabledUntil, upsertRow st.cache userId disabledUntil⟩

/-- Embedding of `NotificationSettings.enable_notifications`: delete the durable row,
then remove the cache entry. -/
def enable_notifications (st : SettingsState) (userId : Int) : SettingsState :=
  ⟨delRow st.table userId, delRow st.cache userId⟩

/-- Embedding of `NotificationSettings.are_notifications_enabled`: cache first, then
the durable table, with lazy expiry (an expired entry triggers
`enable_notifications`); absence anywhere means enabled.  Returns the
answer together with the mutated state. -/
def are_notifications_enabled (st : SettingsState) (userId : Int) (now : Int) :
    Bool × SettingsState :=
  match getRow st.cache userId with
  | some disabledUntil =>
    if now < disabledUntil then (false, st)
    else (true, enable_notifications st userId)
  | none =>
    match getRow st.table userId with
    | some disabledUntil =>
      if now < disabledUntil then
        (false, { st with cache := upsertRow st.cache userId disabledUntil })
      else (true, enable_notifications st userId)
    | none => (true, st)

/-- The bot's combined persistent state (`YonoteBot.db` and
`YonoteBot.settings`). -/
structure BotState where
  db : DbState
  settings : SettingsState
deriving DecidableEq, Repr

/-- State effect of `YonoteBot.change_workspace_callback`: it calls only
`Database.delete_user`; the mute store is untouched. -/
def bot_delete_user (s : BotState) (userId : Int) : BotState :=
  { s with db := delete_user s.db userId }

/-! ### Notification cycle (`check_notifications` / `_process_events` /
`_send_notification`) -/

/-- The success envelope of `documents.info` as consumed by
`_send_notification` (`doc_info.get('ok')`, `doc_info.get('data', {})`). -/
structure DocEnvelope where
  ok : Bool
  data : Option Document

/-- The success envelope of `events.list` as consumed by
`check_notifications` (`events.get('ok')`, `events.get('data')`). -/
structure EventsEnvelope where
  ok : Bool
  data : Option (List Event)

/-- Externally visible effects of one user's slice of the cycle. -/
inductive BotAction where
  | setCursor (userId : Int) (eventId : String)
  | send (chatId : Int) (message : String)
  | close
deriving DecidableEq, Repr

/-- Embedding of `YonoteBot._is_user_author_or_collaborator`: stubbed to `True` in the
source. -/
def is_user_author_or_collaborator (_ : Event) (_ : Document) : Bool := true

/-- Embedding of `YonoteBot._send_notification` for one event: send exactly one
message when the event has a truthy `documentId`, the document fetch
(`docFetch`) yields a success envelope, and the (stubbed) authorship check
passes; otherwise do nothing.  Its own `try/except` means it never
raises. -/
def send_notification_actions (userId : Int) (ev : Event)
    (docFetch : String → Option DocEnvelope) (now : String) : List BotAction :=
  match ev.documentId with
  | none => []
  | some d =>
    if d == "" then []
    else
      match docFetch d with
      | none => []
      | some envl =>
        if !envl.ok then []
        else
          let document := envl.data.getD ⟨none, none⟩
          if !is_user_author_or_collaborator ev document then []
          else [BotAction.send userId (format_notification ev document now)]

/-- Embedding of `YonoteBot._process_events`: classify, advance the cursor, notify for
comment events.  The boolean is `false` exactly when the source raises:
`new_events[0]['id']` is a KeyError when the newest new event has no id
(the actions already performed at that point are kept). -/
def process_events (userId : Int) (lastEventId : Option String) (events : List Event)
    (docFetch : String → Option DocEnvelope) (now : String) : List BotAction × Bool :=
  let newEvents := classify_new_events lastEventId events
  match newEvents with
  | [] => ([], true)
  | e0 :: _ =>
    match e0.id with
    | none => ([], false)
    | some eid =>
      let commentEvents := newEvents.filter is_comment_event
      (BotAction.setCursor userId eid
        :: commentEvents.flatMap (fun e => send_notification_actions userId e docFetch now),
       true)

/-- The per-user body of `YonoteBot.check_notifications`: process when the
`events.list` envelope is truthy, ok, and carries a non-empty list;
`api.close()` is the last statement *inside* the `try`, so an exception in
`_process_events` skips it (the `except` only logs). -/
def check_user_events (userId : Int) (lastEventId : Option String)
    (resp : Option EventsEnvelope) (docFetch : String → Option DocEnvelope) (now : String) :
    List BotAction :=
  let eventsData : Option (List Event) :=
    match resp with
    | none => none
    | some r =>
      if !r.ok then none
      else
        match r.data with
        | none => none
        | some evs => if evs.isEmpty then none else some evs
  match eventsData with
  | none => [BotAction.close]
  | some evs =>
    match process_events userId lastEventId evs docFetch now with
    | (tr, true) => tr ++ [BotAction.close]
    | (tr, false) => tr

/-! ### Concrete fixtures used by witnesses and counterexamples -/

/-- An event whose id is present but is the empty string — a perfectly
well-formed feed element, but one whose id is falsy in Python. -/
def blankIdEvent : Event := ⟨some "", none, none, none, none⟩

/-- Sample newest-first page elements. -/
def evE5 : Event := ⟨some "E5", some "comments.create", some "Alice", some "D1", some "hi"⟩

def evE4 : Event := ⟨some "E4", some "documents.update", none, some "D2", none⟩

def evE3 : Event := ⟨some "E3", some "comments.delete", none, some "D1", none⟩

def evE2 : Event := ⟨some "E2", some "comments.update", none, some "D1", none⟩

/-- The end-to-end sample page `[E5, E4, E3, E2]` from the spec. -/
def pageE : List Event := [evE5, evE4, evE3, evE2]

/-- A bot state with user 1 registered and muted for 4 hours from t = 0. -/
def demoState : BotState :=
  { db := ⟨[(1, ⟨some "tok", true, none, 0⟩)]⟩
    settings := disable_notifications ⟨[], []⟩ 1 4 0 }

/-- A 201-character comment body. -/
def bodyLong : String := ⟨List.replicate 201 'a'⟩

/-- A comment event with no `'id'` key: `new_events[0]['id']` raises
`KeyError` on it. -/
def evNoId : Event := ⟨none, some "comments.create", none, some "D9", none⟩

/-! ### Association-list lemmas -/

theorem filter_upsert_self {α : Type} (l : List (Int × α)) (k : Int) (v : α) :
    (upsertRow l k v).filter (fun p => p.1 == k) = [(k, v)] := by
  have h0 : ∀ t : List (Int × α),
      (t.filter (fun p => !(p.1 == k))).filter (fun p => p.1 == k) = [] := by
    intro t
    induction t with
    | nil => rfl
    | cons a t ih =>
      by_cases h : a.1 = k <;> simp [List.filter_cons, h, ih]
  simp [upsertRow, List.filter_cons, h0]

theorem getRow_upsert_self {α : Type} (l : List (Int × α)) (k : Int) (v : α) :
    getRow (upsertRow l k v) k = some v := by
  simp [getRow, upsertRow, List.find?]

/-! ### Claims about the classifier (C1, C8) -/

/-- C1 (amended): for a stored cursor that is a non-empty string, the
new-events set is the prefix of the page strictly before the first element
whose id equals the cursor (everything from that element on is excluded,
and a page with no match is returned whole, as `takeWhile` of the
non-match predicate); when the cursor is absent **or the empty string**
(both falsy in Python), the whole page is new. -/
theorem claim_C1_classifier (c : Option String) (P : List Event) :
    (∀ s : String, c = some s → s ≠ "" →
      classify_new_events c P = P.takeWhile (fun e => !(e.id == some s))) ∧
    ((c = none ∨ c = some "") → classify_new_events c P = P) := by
  constructor
  · intro s hc hs
    subst hc
    induction P with
    | nil => rfl
    | cons e rest ih =>
      have ht : cursorTruthy (some s) = true := by
        simp [cursorTruthy, hs]
      rw [List.takeWhile_cons]
      cases h : (e.id == some s) with
      | true => simp [classify_new_events, ht, h]
      | false => simp [classify_new_events, ht, h, ih]
  · intro hc
    induction P with
    | nil => rfl
    | cons e rest ih =>
      rcases hc with h | h <;> subst h <;>
        simp [classify_new_events, cursorTruthy, ih]

/-- C1 counterexample to the claim as stated: the stored cursor `""` is a
present cursor matched by the first element of the page, so the claim
demands an empty new-events set, but the code (Python truthiness of
`last_event_id`) treats `""` as absent and returns the whole page. -/
theorem claim_C1_counterexample :
    blankIdEvent.id = some "" ∧
    classify_new_events (some "") [blankIdEvent] = [blankIdEvent] ∧
    [blankIdEvent] ≠ ([] : List Event) := by decide

/-- C1 witness: the amended theorem applied to the spec's sample page
`[E5, E4, E3, E2]` with cursor `E3`, and to an absent cursor. -/
theorem claim_C1_witness :
    classify_new_events (some "E3") pageE
        = pageE.takeWhile (fun e => !(e.id == some "E3")) ∧
    classify_new_events none pageE = pageE :=
  ⟨(claim_C1_classifier (some "E3") pageE).1 "E3" rfl (by decide),
   (claim_C1_classifier none pageE).2 (Or.inl rfl)⟩

/-- C8 (amended): whenever the newest element of the page has a present,
non-empty id — which is what the cursor is advanced to — re-running the
classifier on the same page with that cursor returns the empty new-events
set. -/
theorem claim_C8_idempotent (e : Event) (rest : List Event) (s : String)
    (hid : e.id = some s) (hs : s ≠ "") :
    classify_new_events (some s) (e :: rest) = [] := by
  simp [classify_new_events, cursorTruthy, hid, hs]

/-- C8 counterexample to the claim as stated: on a page whose newest
element has the (present) id `""`, the first run returns a non-empty
new-events set, the cursor is advanced to `""`, yet the second run with
that updated cursor returns the whole page again, not `[]`. -/
theorem claim_C8_counterexample :
    classify_new_events none [blankIdEvent] = [blankIdEvent] ∧
    blankIdEvent.id = some "" ∧
    classify_new_events (some "") [blankIdEvent] ≠ [] := by decide

/-- C8 witness: re-classifying the sample page with the advanced cursor
`E5` yields no new events. -/
theorem claim_C8_witness : classify_new_events (some "E5") (evE5 :: [evE4, evE3, evE2]) = [] :=
  claim_C8_idempotent evE5 [evE4, evE3, evE2] "E5" rfl (by decide)

/-! ### Claims about the stores (C3, C5, C9) -/

/-- C3: the code violates the claim — `Database.delete_user` deletes only
the `users` row; with user 1 muted for 4 hours at t = 0 and then deleted,
the mute row and cache entry (expiring at 14400) survive, and
`are_notifications_enabled` at t = 3600 returns `false`, not the claimed
default `true`. -/
theorem claim_C3_delete_leaves_mute :
    getRow (bot_delete_user demoState 1).db.users 1 = none ∧
    getRow (bot_delete_user demoState 1).settings.table 1 = some 14400 ∧
    getRow (bot_delete_user demoState 1).settings.cache 1 = some 14400 ∧
    (are_notifications_enabled (bot_delete_user demoState 1).settings 1 3600).1 = false := by
  decide

/-- C5: two successive `disable_notifications` calls for the same user
leave exactly one mute row for that user — in the durable table and in the
cache — ending `h2` hours after the second call's `now`. -/
theorem claim_C5_disable_overwrites (st : SettingsState) (u h1 h2 t1 t2 : Int) :
    ((disable_notifications (disable_notifications st u h1 t1) u h2 t2).table.filter
        (fun p => p.1 == u) = [(u, t2 + h2 * 3600)]) ∧
    ((disable_notifications (disable_notifications st u h1 t1) u h2 t2).cache.filter
        (fun p => p.1 == u) = [(u, t2 + h2 * 3600)]) ∧
    getRow (disable_notifications (disable_notifications st u h1 t1) u h2 t2).cache u
      = some (t2 + h2 * 3600) := by
  refine ⟨?_, ?_, ?_⟩ <;>
    simp [disable_notifications, filter_upsert_self, getRow_upsert_self]

/-- C9: `save_user_token` is an `INSERT OR REPLACE` naming only
`user_id` and `yonote_token`, so whatever the previous row held, the
stored row afterwards has the schema defaults: `notifications_enabled`
back to true and `last_event_id` absent. -/
theorem claim_C9_token_resets_row (db : DbState) (u : Int) (tok : String) (now : Int) :
    getRow (save_user_token db u tok now).users u = some ⟨some tok, true, none, now⟩ := by
  simp [save_user_token, getRow_upsert_self]

/-! ### Claim about the comment classifier (C10) -/

/-- C10: the two-tier comment classifier (exact allowlist, then
case-insensitive substring fallback) is extensionally equal to the
substring fallback alone, because every allowlist entry contains the
substring `comment`. -/
theorem claim_C10_allowlist_redundant (ev : Event) :
    is_comment_event ev = is_comment_event_fuzzy ev := by
  unfold is_comment_event is_comment_event_fuzzy
  set l := pyLower (ev.name.getD "").data with hl
  cases hm : comment_event_names.any (fun s => s.data == l) with
  | false => simp [hm]
  | true =>
    have hsub : pyIn "comment".data l = true := by
      rw [List.any_eq_true] at hm
      obtain ⟨s, hs, he⟩ := hm
      have hse : s.data = l := by
        exact eq_of_beq he
      rw [← hse]
      fin_cases hs <;> decide
    simp [hm, hsub]

/-! ### Strip lemmas for the formatter template -/

theorem dropWhile_front (X : List Char) :
    List.dropWhile isPySpace ("\n📄 <b>".data ++ X) = "📄 <b>".data ++ X := rfl

theorem dropTrail_end_link (X : List Char) :
    dropTrail (X ++ "\">Перейти к странице</a>\n".data)
      = X ++ "\">Перейти к странице</a>".data := by
  unfold dropTrail
  rw [List.reverse_append]
  have h : List.dropWhile isPySpace
      ("\">Перейти к странице</a>\n".data.reverse ++ X.reverse)
      = "\">Перейти к странице</a>".data.reverse ++ X.reverse := rfl
  rw [h, List.reverse_append, List.reverse_reverse, List.reverse_reverse]

theorem dropTrail_end_i (X : List Char) :
    dropTrail (X ++ "</i>".data) = X ++ "</i>".data := by
  unfold dropTrail
  rw [List.reverse_append]
  have h : List.dropWhile isPySpace ("</i>".data.reverse ++ X.reverse)
      = "</i>".data.reverse ++ X.reverse := rfl
  rw [h, List.reverse_append, List.reverse_reverse, List.reverse_reverse]

theorem pyStrip_sandwich_link (M : List Char) :
    pyStripList ("\n📄 <b>".data ++ M ++ "\">Перейти к странице</a>\n".data)
      = "📄 <b>".data ++ M ++ "\">Перейти к странице</a>".data := by
  unfold pyStripList
  rw [List.append_assoc, dropWhile_front, ← List.append_assoc, dropTrail_end_link]

theorem pyStrip_sandwich_i (M : List Char) :
    pyStripList ("\n📄 <b>".data ++ M ++ "</i>".data)
      = "📄 <b>".data ++ M ++ "</i>".data := by
  unfold pyStripList
  rw [List.append_assoc, dropWhile_front, ← List.append_assoc, dropTrail_end_i]

/-- Structure of every message the formatter can produce: the stripped
template with each field (or its fallback literal) in place, followed by
the optional comment block. -/
theorem format_notification_data (ev : Event) (doc : Document) (t : String) :
    (format_notification ev doc t).data
      = "📄 <b>".data ++ (doc.title.getD "Без названия").data ++ "</b>\n\n👤 ".data
          ++ (ev.actorName.getD "Неизвестный пользователь").data ++ " ".data
          ++ (verb_for (ev.name.getD "")).data ++ "\n\n🕐 ".data ++ t.data
          ++ " (МСК)\n\n🔗 <a href=\"".data ++ "https://app.yonote.ru/doc/".data
          ++ (doc.id.getD "").data ++ "\">Перейти к странице</a>".data
          ++ comment_tail ev := by
  have hn : (format_notification ev doc t).data = pyStripList (format_raw ev doc t) := rfl
  rw [hn]
  simp only [comment_tail]
  rcases hd : ev.data with _ | b
  · have hbase : format_raw ev doc t
        = "\n📄 <b>".data
            ++ ((doc.title.getD "Без названия").data ++ "</b>\n\n👤 ".data
              ++ (ev.actorName.getD "Неизвестный пользователь").data ++ " ".data
              ++ (verb_for (ev.name.getD "")).data ++ "\n\n🕐 ".data ++ t.data
              ++ " (МСК)\n\n🔗 <a href=\"".data ++ "https://app.yonote.ru/doc/".data
              ++ (doc.id.getD "").data)
            ++ "\">Перейти к странице</a>\n".data := by
      unfold format_raw
      rw [hd]
      simp only [List.append_assoc]
    rw [hbase, pyStrip_sandwich_link]
    simp only [List.append_assoc, List.append_nil]
  · cases hb : (b == "") with
    | true =>
      have hbase : format_raw ev doc t
          = "\n📄 <b>".data
              ++ ((doc.title.getD "Без названия").data ++ "</b>\n\n👤 ".data
                ++ (ev.actorName.getD "Неизвестный пользователь").data ++ " ".data
                ++ (verb_for (ev.name.getD "")).data ++ "\n\n🕐 ".data ++ t.data
                ++ " (МСК)\n\n🔗 <a href=\"".data ++ "https://app.yonote.ru/doc/".data
                ++ (doc.id.getD "").data)
              ++ "\">Перейти к странице</a>\n".data := by
        unfold format_raw
        rw [hd]
        dsimp only
        rw [if_pos hb]
        simp only [List.append_assoc]
      rw [hbase, pyStrip_sandwich_link]
      dsimp only
      rw [if_pos hb]
      simp only [List.append_assoc, List.append_nil]
    | false =>
      have hbase : format_raw ev doc t
          = "\n📄 <b>".data
              ++ ((doc.title.getD "Без названия").data ++ "</b>\n\n👤 ".data
                ++ (ev.actorName.getD "Неизвестный пользователь").data ++ " ".data
                ++ (verb_for (ev.name.getD "")).data ++ "\n\n🕐 ".data ++ t.data
                ++ " (МСК)\n\n🔗 <a href=\"".data ++ "https://app.yonote.ru/doc/".data
                ++ (doc.id.getD "").data ++ "\">Перейти к странице</a>\n".data
                ++ "\n💬 <i>".data
                ++ (b.data.take 200 ++ (if 200 < b.data.length then "...".data else [])))
              ++ "</i>".data := by
        unfold format_raw
        rw [hd]
        dsimp only
        rw [if_neg (show ¬((b == "") = true) from by simp [hb])]
        simp only [List.append_assoc]
      rw [hbase, pyStrip_sandwich_i]
      dsimp only
      rw [if_neg (show ¬((b == "") = true) from by simp [hb])]
      simp only [List.append_assoc]
      rfl

/-! ### Claims about the formatter (C6, C7) -/

/-- C6: when an event carries a (non-empty) comment body, the formatter
appends the body truncated to its first 200 characters with the `...`
marker exactly when the body is longer than 200 characters, and the body
unmodified with no marker otherwise. -/
theorem claim_C6_truncation (ev : Event) (doc : Document) (t : String) (b : String)
    (hd : ev.data = some b) (hb : b ≠ "") :
    ∃ p : List Char, (format_notification ev doc t).data
      = p ++ "💬 <i>".data
          ++ (if 200 < b.length then b.data.take 200 ++ "...".data else b.data)
          ++ "</i>".data := by
  have hb' : (b == "") = false := by simp [hb]
  refine ⟨"📄 <b>".data ++ (doc.title.getD "Без названия").data ++ "</b>\n\n👤 ".data
      ++ (ev.actorName.getD "Неизвестный пользователь").data ++ " ".data
      ++ (verb_for (ev.name.getD "")).data ++ "\n\n🕐 ".data ++ t.data
      ++ " (МСК)\n\n🔗 <a href=\"".data ++ "https://app.yonote.ru/doc/".data
      ++ (doc.id.getD "").data ++ "\">Перейти к странице</a>".data ++ "\n\n".data, ?_⟩
  rw [format_notification_data]
  simp only [comment_tail]
  rw [hd]
  dsimp only
  rw [if_neg (show ¬((b == "") = true) from by simp [hb'])]
  by_cases hL : 200 < b.data.length
  · rw [if_pos hL, if_pos (show 200 < b.length from hL)]
    simp only [List.append_assoc]
    rfl
  · rw [if_neg hL, if_neg (show ¬(200 < b.length) from hL)]
    rw [List.take_of_length_le (Nat.le_of_not_lt hL)]
    simp only [List.append_assoc, List.append_nil]
    rfl

/-- C6 witness: a 201-character body is rendered as its first 200
characters plus the ellipsis marker. -/
theorem claim_C6_witness :
    ∃ p : List Char,
      (format_notification ⟨none, none, none, none, some bodyLong⟩ ⟨none, none⟩ "T").data
        = p ++ "💬 <i>".data
            ++ (if 200 < bodyLong.length then bodyLong.data.take 200 ++ "...".data
                else bodyLong.data)
            ++ "</i>".data :=
  claim_C6_truncation ⟨none, none, none, none, some bodyLong⟩ ⟨none, none⟩ "T" bodyLong
    rfl (by decide)

/-- C7: the formatter is total over the embedded inputs and degrades
missing fields to the fixed fallback literals: absent title → default
title, absent actor name → default actor, absent event name → generic
verb phrase, absent document id → URL with empty id, absent comment body
→ the message ends at the link with no comment block. -/
theorem claim_C7_formatter_fallbacks (ev : Event) (doc : Document) (t : String) :
    (doc.title = none → ∃ p q, (format_notification ev doc t).data
        = p ++ "Без названия".data ++ q) ∧
    (ev.actorName = none → ∃ p q, (format_notification ev doc t).data
        = p ++ "Неизвестный пользователь".data ++ q) ∧
    (ev.name = none → ∃ p q, (format_notification ev doc t).data
        = p ++ "выполнил действие с комментарием".data ++ q) ∧
    (doc.id = none → ∃ p q, (format_notification ev doc t).data
        = p ++ "<a href=\"https://app.yonote.ru/doc/\">".data ++ q) ∧
    (ev.data = none → ∃ p, (format_notification ev doc t).data
        = p ++ "Перейти к странице</a>".data) := by
  refine ⟨?_, ?_, ?_, ?_, ?_⟩
  · intro h
    refine ⟨"📄 <b>".data,
      "</b>\n\n👤 ".data ++ (ev.actorName.getD "Неизвестный пользователь").data ++ " ".data
        ++ (verb_for (ev.name.getD "")).data ++ "\n\n🕐 ".data ++ t.data
        ++ " (МСК)\n\n🔗 <a href=\"".data ++ "https://app.yonote.ru/doc/".data
        ++ (doc.id.getD "").data ++ "\">Перейти к странице</a>".data ++ comment_tail ev, ?_⟩
    rw [format_notification_data, h]
    simp only [List.append_assoc]
    rfl
  · intro h
    refine ⟨"📄 <b>".data ++ (doc.title.getD "Без названия").data ++ "</b>\n\n👤 ".data,
      " ".data ++ (verb_for (ev.name.getD "")).data ++ "\n\n🕐 ".data ++ t.data
        ++ " (МСК)\n\n🔗 <a href=\"".data ++ "https://app.yonote.ru/doc/".data
        ++ (doc.id.getD "").data ++ "\">Перейти к странице</a>".data ++ comment_tail ev, ?_⟩
    rw [format_notification_data, h]
    simp only [List.append_assoc]
    rfl
  · intro h
    refine ⟨"📄 <b>".data ++ (doc.title.getD "Без названия").data ++ "</b>\n\n👤 ".data
        ++ (ev.actorName.getD "Неизвестный пользователь").data ++ " ".data,
      "\n\n🕐 ".data ++ t.data
        ++ " (МСК)\n\n🔗 <a href=\"".data ++ "https://app.yonote.ru/doc/".data
        ++ (doc.id.getD "").data ++ "\">Перейти к странице</a>".data ++ comment_tail ev, ?_⟩
    rw [format_notification_data, h]
    simp only [List.append_assoc]
    rfl
  · intro h
    refine ⟨"📄 <b>".data ++ (doc.title.getD "Без названия").data ++ "</b>\n\n👤 ".data
        ++ (ev.actorName.getD "Неизвестный пользователь").data ++ " ".data
        ++ (verb_for (ev.name.getD "")).data ++ "\n\n🕐 ".data ++ t.data
        ++ " (МСК)\n\n🔗 ".data,
      "Перейти к странице</a>".data ++ comment_tail ev, ?_⟩
    rw [format_notification_data, h]
    simp only [List.append_assoc]
    rfl
  · intro h
    refine ⟨"📄 <b>".data ++ (doc.title.getD "Без названия").data ++ "</b>\n\n👤 ".data
        ++ (ev.actorName.getD "Неизвестный пользователь").data ++ " ".data
        ++ (verb_for (ev.name.getD "")).data ++ "\n\n🕐 ".data ++ t.data
        ++ " (МСК)\n\n🔗 <a href=\"".data ++ "https://app.yonote.ru/doc/".data
        ++ (doc.id.getD "").data ++ "\">".data, ?_⟩
    rw [format_notification_data]
    simp only [comment_tail]
    rw [h]
    simp only [List.append_assoc, List.append_nil]
    rfl

/-- C7 witness: the five fallbacks, exercised on an event and document
with every field absent. -/
theorem claim_C7_witness :
    (∃ p q, (format_notification ⟨none, none, none, none, none⟩ ⟨none, none⟩ "T").data
        = p ++ "Без названия".data ++ q) ∧
    (∃ p q, (format_notification ⟨none, none, none, none, none⟩ ⟨none, none⟩ "T").data
        = p ++ "Неизвестный пользователь".data ++ q) ∧
    (∃ p q, (format_notification ⟨none, none, none, none, none⟩ ⟨none, none⟩ "T").data
        = p ++ "выполнил действие с комментарием".data ++ q) ∧
    (∃ p q, (format_notification ⟨none, none, none, none, none⟩ ⟨none, none⟩ "T").data
        = p ++ "<a href=\"https://app.yonote.ru/doc/\">".data ++ q) ∧
    (∃ p, (format_notification ⟨none, none, none, none, none⟩ ⟨none, none⟩ "T").data
        = p ++ "Перейти к странице</a>".data) :=
  ⟨(claim_C7_formatter_fallbacks ⟨none, none, none, none, none⟩ ⟨none, none⟩ "T").1 rfl,
   (claim_C7_formatter_fallbacks ⟨none, none, none, none, none⟩ ⟨none, none⟩ "T").2.1 rfl,
   (claim_C7_formatter_fallbacks ⟨none, none, none, none, none⟩ ⟨none, none⟩ "T").2.2.1 rfl,
   (claim_C7_formatter_fallbacks ⟨none, none, none, none, none⟩ ⟨none, none⟩ "T").2.2.2.1 rfl,
   (claim_C7_formatter_fallbacks ⟨none, none, none, none, none⟩ ⟨none, none⟩ "T").2.2.2.2 rfl⟩

/-! ### Claims about the notification cycle (C2, C4) -/

/-- Helper: `_send_notification` produces at most one action, and any action it
produces is a message send to the processed user. -/
theorem send_actions_shape (userId : Int) (ev : Event)
    (docFetch : String → Option DocEnvelope) (now : String) :
    send_notification_actions userId ev docFetch now = []
    ∨ ∃ m, send_notification_actions userId ev docFetch now = [BotAction.send userId m] := by
  unfold send_notification_actions
  rcases ev.documentId with _ | d
  · exact Or.inl rfl
  · dsimp only
    by_cases hd : (d == "") = true
    · rw [if_pos hd]
      exact Or.inl rfl
    · rw [if_neg hd]
      rcases docFetch d with _ | envl
      · exact Or.inl rfl
      · dsimp only
        by_cases ho : (!envl.ok) = true
        · rw [if_pos ho]
          exact Or.inl rfl
        · rw [if_neg ho]
          rw [if_neg (show ¬((!is_user_author_or_collaborator ev
              (envl.data.getD ⟨none, none⟩)) = true) from by
            simp [is_user_author_or_collaborator])]
          exact Or.inr ⟨_, rfl⟩

/-- C2: when classification finds no new events, `_process_events`
performs no action at all (the cursor is untouched); when it finds some,
the head of the new-events list is the newest fetched event, and the
produced trace is exactly one cursor write to that event's id — whether or
not it is comment-related — followed only by message sends. -/
theorem claim_C2_cursor_before_sends (uid : Int) (c : Option String) (evs : List Event)
    (docFetch : String → Option DocEnvelope) (now : String) :
    (classify_new_events c evs = [] →
      process_events uid c evs docFetch now = ([], true)) ∧
    (∀ e rest, classify_new_events c evs = e :: rest → evs.head? = some e) ∧
    (∀ e rest i, classify_new_events c evs = e :: rest → e.id = some i →
      ∃ sends, process_events uid c evs docFetch now
          = (BotAction.setCursor uid i :: sends, true)
        ∧ ∀ a ∈ sends, ∃ u m, a = BotAction.send u m) := by
  refine ⟨?_, ?_, ?_⟩
  · intro h
    unfold process_events
    rw [h]
  · intro e rest h
    cases evs with
    | nil => simp [classify_new_events] at h
    | cons e0 r =>
      simp only [classify_new_events] at h
      by_cases hc : (cursorTruthy c && (e0.id == c)) = true
      · rw [if_pos hc] at h
        cases h
      · rw [if_neg hc] at h
        rw [List.head?_cons, (List.cons.injEq .. ).mp h |>.1]
  · intro e rest i h hid
    unfold process_events
    rw [h]
    dsimp only
    rw [hid]
    dsimp only
    refine ⟨_, rfl, ?_⟩
    intro a ha
    rw [List.mem_flatMap] at ha
    obtain ⟨x, _, hax⟩ := ha
    rcases send_actions_shape uid x docFetch now with h0 | ⟨m, hm⟩
    · rw [h0] at hax
      cases hax
    · rw [hm] at hax
      rw [List.mem_singleton] at hax
      exact ⟨uid, m, hax⟩

/-- C2 witness: a fresh user and a one-event page — the trace starts with
the cursor write to `E5` and continues only with sends. -/
theorem claim_C2_witness :
    ∃ sends, process_events 7 none [evE5] (fun _ => none) "T"
        = (BotAction.setCursor 7 "E5" :: sends, true)
      ∧ ∀ a ∈ sends, ∃ u m, a = BotAction.send u m :=
  (claim_C2_cursor_before_sends 7 none [evE5] (fun _ => none) "T").2.2 evE5 [] "E5" rfl rfl

/-- C4: the code violates the claim — `api.close()` is the last statement
inside the `try` of `check_notifications`, not in a `finally`, so when
`_process_events` raises (here: the newest new event has no `'id'` key,
so `new_events[0]['id']` is a KeyError) the per-user trace contains no
close action at all and the client session leaks. -/
theorem claim_C4_close_skipped_on_error :
    check_user_events 1 none (some ⟨true, some [evNoId]⟩) (fun _ => none) "T" = []
    ∧ BotAction.close
        ∉ check_user_events 1 none (some ⟨true, some [evNoId]⟩) (fun _ => none) "T" := by
  have h : check_user_events 1 none (some ⟨true, some [evNoId]⟩) (fun _ => none) "T" = [] :=
    rfl
  exact ⟨h, by rw [h]; simp⟩
